import Mathlib

/-!
Shallow embedding of the SynapsClient SDK (src/index.ts of synaps-io/verify.js).

The client is a single class whose fields we model as a record
`SynapsState`.  DOM effects that the claims depend on are tracked
explicitly: where the iframe and the loader element are attached, the
inline overflow/margin overrides on the html and body elements, and the
listener-registration flags.  Ghost counters (number of loader
insertions, iframe appends, layout mutations, proxy installs and
uninstalls, dispatcher registrations) record how often each effect has
been performed; they influence nothing and only serve the theorems.
User callbacks registered through `on` are modelled as opaque numeric
identifiers; when the dispatcher invokes one, a `CallbackObs` entry is
appended to a ghost log recording the state the callback observes
(the `isOpen` flag and the html overflow override at invocation time).

JavaScript exceptions are modelled by returning the state reached at
the moment of the throw together with `some` error: mutations performed
before the throw persist, as they do in JavaScript.  `removeChild` on a
node that is not a child of the receiver throws a DOM NotFoundError,
modelled by `JsError.domNotFound`.

Not modelled (pure plumbing with no bearing on the claims): the injected
CSS stylesheet text and `_initStyle`, the individual iframe attributes
other than `src` and the hidden/visible style, and the click-target
matching inside the `_initModal` click listener (only the fact that the
listener is registered).
-/

namespace Synaps

/-- JS truthiness of an optional string: undefined/null and the empty string are falsy. -/
def truthyStr : Option String → Bool
  | none => false
  | some s => !(s == "")

/-- JS truthiness of an optional number: undefined/null and zero are falsy. -/
def truthyInt : Option Int → Bool
  | none => false
  | some n => !(n == 0)

/-- The `Color` interface of the source; at runtime both fields may be absent. -/
structure Color where
  primary : Option String
  secondary : Option Int
deriving Repr, DecidableEq

/-- Errors the embedded operations can raise: the synchronous configuration
errors thrown by the constructor and by init, and the DOM exceptions thrown
by removeChild (NotFoundError when the argument is not a child of the
receiver, TypeError when it is undefined). -/
inductive JsError where
  | configurationError (msg : String)
  | domNotFound
  | typeError
deriving Repr, DecidableEq

/-- Where the iframe node currently sits in the host document. -/
inductive IframeLoc where
  | notAttached
  | inBody
  | inElement
deriving Repr, DecidableEq

/-- The node stored in the loaderElement field: the document body (modal
open) or the embed mount element. -/
inductive LoaderParent where
  | body
  | element
deriving Repr, DecidableEq

/-- Inline style overrides on the html and body elements of the host page.
`none` means the property is not set. -/
structure PageLayout where
  htmlOverflow : Option String
  htmlMargin : Option String
  bodyOverflow : Option String
  bodyMargin : Option String
deriving Repr, DecidableEq

/-- Ghost record of one user-callback invocation: which event fired and
what the callback observed of the client at that moment. -/
structure CallbackObs where
  event : String
  isOpenSeen : Bool
  htmlOverflowSeen : Option String
deriving Repr, DecidableEq

/-- The fields of the SynapsClient object together with the modelled DOM
facts and the ghost counters. -/
structure SynapsState where
  baseURL : String
  sessionID : String
  service : String
  elementID : Option String
  colors : Option Color
  type : String
  lang : String
  tier : Option Int
  callbacks : List (String × Nat)
  isOpen : Bool
  alreadyInit : Bool
  iframeCreated : Bool
  iframeLoc : IframeLoc
  iframeSrc : Option String
  iframeStyleHidden : Bool
  loaderSet : Bool
  loaderElement : Option LoaderParent
  loaderAttached : Bool
  providerProxyUninstaller : Option Nat
  readyListenerRegistered : Bool
  eventInited : Bool
  dispatcherRegistered : Bool
  clickListenerRegistered : Bool
  pendingEmbedRetry : Bool
  embedTargetExists : Bool
  layout : PageLayout
  loaderInsertions : Nat
  iframeAppends : Nat
  layoutMutations : Nat
  installCount : Nat
  uninstallCount : Nat
  dispatcherRegs : Nat
  callbackLog : List CallbackObs
deriving Repr, DecidableEq

/-- Default base URL chosen by the constructor when no url argument is
given: the corporate endpoint for service "corporate", the individual
endpoint otherwise. -/
def defaultBaseURL (service : String) : String :=
  if service == "corporate" then "https://verify-v3.synaps.io"
  else "https://verify.synaps.io"

/-- The state of a freshly constructed client (all constructor field
initialisations), before init.  `embedTargetExists` models whether
document.getElementById will find the embed mount element; it is an
environment fact, initially false, toggled directly in scenarios. -/
def initialState (baseURL sessionID service : String) : SynapsState := {
  baseURL := baseURL
  sessionID := sessionID
  service := service
  elementID := none
  colors := none
  type := "modal"
  lang := "en"
  tier := none
  callbacks := []
  isOpen := false
  alreadyInit := false
  iframeCreated := false
  iframeLoc := IframeLoc.notAttached
  iframeSrc := none
  iframeStyleHidden := false
  loaderSet := false
  loaderElement := none
  loaderAttached := false
  providerProxyUninstaller := none
  readyListenerRegistered := false
  eventInited := false
  dispatcherRegistered := false
  clickListenerRegistered := false
  pendingEmbedRetry := false
  embedTargetExists := false
  layout := { htmlOverflow := none, htmlMargin := none,
              bodyOverflow := none, bodyMargin := none }
  loaderInsertions := 0
  iframeAppends := 0
  layoutMutations := 0
  installCount := 0
  uninstallCount := 0
  dispatcherRegs := 0
  callbackLog := [] }

/-- The constructor.  Arguments are optional because JavaScript callers may
omit them or pass empty strings; the source guard is the truthiness check
`!sessionID || !service`, and `!url` likewise treats an empty url as
absent. -/
def construct (sessionID service url : Option String) :
    Except JsError SynapsState :=
  if !truthyStr sessionID || !truthyStr service then
    Except.error (JsError.configurationError
      "\"sessionID\" and \"service\" are required.")
  else
    let sid := sessionID.getD ""
    let svc := service.getD ""
    let base := if truthyStr url then url.getD "" else defaultBaseURL svc
    Except.ok (initialState base sid svc)

/-- The options object accepted by init. -/
structure InitOptions where
  type : Option String
  element_id : Option String
  colors : Option Color
  lang : Option String
  tier : Option Int
deriving Repr, DecidableEq

/-- JS `value || default` on an optional string. -/
def orElseStr (v : Option String) (d : String) : String :=
  if truthyStr v then v.getD "" else d

/-- The primary color of the client, `this.colors?.primary`. -/
def colorsPrimary (s : SynapsState) : Option String :=
  s.colors.bind Color.primary

/-- The secondary color of the client, `this.colors?.secondary`. -/
def colorsSecondary (s : SynapsState) : Option Int :=
  s.colors.bind Color.secondary

/-- `_formatURL`: builds the verify-UI URL by string interpolation.  Values
are appended verbatim; the source performs no percent-encoding. -/
def formatURL (s : SynapsState) : String :=
  let url := s.baseURL ++ "?session_id=" ++ s.sessionID
    ++ "&service=" ++ s.service
    ++ "&type=" ++ s.type
    ++ "&lang=" ++ (if s.lang == "" then "en" else s.lang)
  let url := if truthyStr (colorsPrimary s) then
      url ++ "&primary_color=" ++ (colorsPrimary s).getD "" else url
  let url := if truthyInt (colorsSecondary s) then
      url ++ "&secondary=" ++ toString ((colorsSecondary s).getD 0) else url
  let url := if truthyInt s.tier then
      url ++ "&tier=" ++ toString (s.tier.getD 0) else url
  url

/-- `getFlow`: sets the src and the hidden placeholder style on the iframe
(optional chaining: no-ops when the iframe does not exist) and returns it. -/
def getFlow (s : SynapsState) : SynapsState :=
  if s.iframeCreated then
    { s with iframeSrc := some (formatURL s), iframeStyleHidden := true }
  else s

/-- `_initEmbed`: if the mount element exists, attach the flow iframe and a
loader to it and mark the surface open; otherwise schedule a retry. -/
def initEmbed (s : SynapsState) : SynapsState :=
  if truthyStr s.elementID then
    if !s.embedTargetExists then { s with pendingEmbedRetry := true }
    else
      let s := getFlow s
      let s := if s.iframeCreated then
          { s with iframeLoc := IframeLoc.inElement,
                   iframeAppends := s.iframeAppends + 1 }
        else s
      let s := { s with loaderSet := true,
                        loaderElement := some LoaderParent.element }
      let s := { s with loaderAttached := true,
                        loaderInsertions := s.loaderInsertions + 1 }
      { s with isOpen := true }
  else s

/-- `_initLoad` minus the ready listener body: run `_initModal` or
`_initEmbed` by mode, then register the window message listener for ready
signals; the closure flag eventInited starts false. -/
def initLoad (s : SynapsState) : SynapsState :=
  let s := if s.type == "modal" then
      { s with clickListenerRegistered := true }
    else initEmbed s
  { s with readyListenerRegistered := true, eventInited := false }

/-- `init`: guarded by alreadyInit; validates options.type before any field
is assigned, then fills the display options, creates the iframe, defaults
the element id by mode, runs `_initLoad` and sets the guard flag. -/
def init (s : SynapsState) (options : Option InitOptions) :
    SynapsState × Option JsError :=
  if s.alreadyInit then (s, none)
  else
    let otype := options.bind InitOptions.type
    if truthyStr otype && !(["modal", "embed"].contains (otype.getD "")) then
      (s, some (JsError.configurationError
        "The type must be either \"modal\" or \"embed\"."))
    else
      let s := { s with
        elementID := options.bind InitOptions.element_id
        colors := some ((options.bind InitOptions.colors).getD
          { primary := none, secondary := none })
        type := orElseStr otype "modal"
        lang := orElseStr (options.bind InitOptions.lang) "en"
        tier := options.bind InitOptions.tier
        iframeCreated := true
        iframeLoc := IframeLoc.notAttached
        iframeSrc := none
        iframeStyleHidden := false }
      let s := if !truthyStr s.elementID then
          { s with elementID := some (if s.type == "modal" then "synaps-btn" else "synaps-embed") }
        else s
      let s := initLoad s
      ({ s with alreadyInit := true }, none)

/-- The `on` method (named onEvent here because `on` is notation in Lean):
registers or overwrites the callback for an event; the latest registration
is found first by lookup. -/
def onEvent (s : SynapsState) (eventType : String) (cb : Nat) : SynapsState :=
  { s with callbacks := (eventType, cb) :: s.callbacks }

/-- `openSession`: no-op when already open; otherwise insert a loader into
the body, set the html overflow override, mark the session open and attach
the iframe (with its source URL) to the body. -/
def openSession (s : SynapsState) : SynapsState :=
  if s.isOpen then s
  else
    let s := { s with loaderSet := true,
                      loaderElement := some LoaderParent.body }
    let s := { s with loaderAttached := true,
                      loaderInsertions := s.loaderInsertions + 1 }
    let src := formatURL s
    let s := { s with
      layout := { s.layout with htmlOverflow := some "hidden" }
      layoutMutations := s.layoutMutations + 1 }
    let s := { s with isOpen := true }
    let s := if s.iframeCreated then
        { s with iframeSrc := some src, iframeStyleHidden := false }
      else s
    if s.iframeCreated then
      { s with iframeLoc := IframeLoc.inBody,
               iframeAppends := s.iframeAppends + 1 }
    else s

/-- Calls the stored proxy uninstaller and clears it; no-op when absent. -/
def uninstallProxy (s : SynapsState) : SynapsState :=
  match s.providerProxyUninstaller with
  | some _ => { s with providerProxyUninstaller := none,
                       uninstallCount := s.uninstallCount + 1 }
  | none => s

/-- `closeFlow`: removes the overflow and margin overrides from html and
body, clears the open flag, then removes the iframe from the document body
(this throws a DOM NotFoundError when the iframe exists but is not a child
of the body — the field is never cleared after a removal) and finally
uninstalls the provider proxy if one is stored.  Mutations made before a
throw persist. -/
def closeFlow (s : SynapsState) : SynapsState × Option JsError :=
  let s := { s with layout := { htmlOverflow := none, htmlMargin := none,
                                bodyOverflow := none, bodyMargin := none } }
  let s := { s with isOpen := false }
  if s.iframeCreated then
    if s.iframeLoc == IframeLoc.inBody then
      let s := { s with iframeLoc := IframeLoc.notAttached }
      (uninstallProxy s, none)
    else (s, some JsError.domNotFound)
  else (uninstallProxy s, none)

/-- Whether installProviderProxyFor is reachable: `this.iframe?.contentWindow`
is non-null exactly when the iframe exists and is attached to the document. -/
def contentWindowReachable (s : SynapsState) : Bool :=
  s.iframeCreated && !(s.iframeLoc == IframeLoc.notAttached)

/-- The part of the ready listener after the removeChild line, which runs
only when that line did not throw: install the provider proxy when the
iframe content window is reachable (storing the uninstaller, overwriting
any previous one), reveal the embed surface, and register the finish/close
dispatcher once, guarded by the eventInited closure flag. -/
def handleReadyRest (s : SynapsState) : SynapsState × Option JsError :=
  let s := if contentWindowReachable s then
      { s with providerProxyUninstaller := some (s.installCount + 1),
               installCount := s.installCount + 1 }
    else s
  let s := if s.type == "embed" && s.iframeCreated then
      { s with iframeStyleHidden := false }
    else s
  let s := if !s.eventInited then
      { s with dispatcherRegistered := true,
               dispatcherRegs := s.dispatcherRegs + 1,
               eventInited := true }
    else s
  (s, none)

/-- The body of the ready listener installed by `_initLoad`: first the
removeChild of the loader from loaderElement (optional chaining on
loaderElement; removeChild throws a TypeError on an undefined loader and a
NotFoundError when the loader is not currently a child), then, when that
did not throw, the rest of the handler. -/
def handleReady (s : SynapsState) : SynapsState × Option JsError :=
  match s.loaderElement with
  | none => handleReadyRest s
  | some _ =>
      if !s.loaderSet then (s, some JsError.typeError)
      else if s.loaderAttached then
        handleReadyRest { s with loaderAttached := false }
      else (s, some JsError.domNotFound)

/-- The body of the finish/close dispatcher installed by `_initEvents`:
ignore other message types; in modal mode close the flow first; then invoke
the registered callback for the event, if any, logging what it observes. -/
def handleFinishClose (s : SynapsState) (msgType : String) :
    SynapsState × Option JsError :=
  if !(["finish", "close"].contains msgType) then (s, none)
  else
    let step := if s.type == "modal" then closeFlow s else (s, none)
    match step with
    | (s, some e) => (s, some e)
    | (s, none) =>
        match s.callbacks.lookup msgType with
        | some _ =>
            ({ s with callbackLog := s.callbackLog ++
                [{ event := msgType, isOpenSeen := s.isOpen,
                   htmlOverflowSeen := s.layout.htmlOverflow }] }, none)
        | none => (s, none)

/-- Delivery of one inbound window message with the given type
discriminator.  The ready listener (when registered) reacts only to
"ready"; the dispatcher (when registered) reacts only to "finish" and
"close"; the two filters are disjoint, so listener order is immaterial. -/
def handleMessage (s : SynapsState) (msgType : String) :
    SynapsState × Option JsError :=
  if s.readyListenerRegistered && msgType == "ready" then handleReady s
  else if s.dispatcherRegistered then handleFinishClose s msgType
  else (s, none)

/-- Whether the ready handler runs to completion rather than throwing at
the initial removeChild: it throws exactly when loaderElement is set but
the loader is missing or no longer attached to it. -/
def readyPass (s : SynapsState) : Bool :=
  match s.loaderElement with
  | none => true
  | some _ => s.loaderSet && s.loaderAttached

/-- A page layout with no overrides: what closeFlow restores. -/
def clearedLayout : PageLayout :=
  { htmlOverflow := none, htmlMargin := none,
    bodyOverflow := none, bodyMargin := none }

/-- Modelled from the spec sentence for the URL builder: deterministically
append to baseURL, in fixed order, session_id, service, type and lang
(default en when falsy), then conditionally primary_color (when the
primary color is set), secondary (when the secondary color is set) and
tier (when the tier is truthy). -/
def specBuildURL (s : SynapsState) : String :=
  s.baseURL ++ "?session_id=" ++ s.sessionID
    ++ "&service=" ++ s.service
    ++ "&type=" ++ s.type
    ++ "&lang=" ++ (if s.lang == "" then "en" else s.lang)
    ++ (if truthyStr (colorsPrimary s) then
          "&primary_color=" ++ (colorsPrimary s).getD "" else "")
    ++ (if truthyInt (colorsSecondary s) then
          "&secondary=" ++ toString ((colorsSecondary s).getD 0) else "")
    ++ (if truthyInt s.tier then
          "&tier=" ++ toString (s.tier.getD 0) else "")

/-- Init options selecting modal mode and nothing else. -/
def modalOpts : InitOptions :=
  { type := some "modal", element_id := none, colors := none,
    lang := none, tier := none }

/-- A freshly constructed individual client for the session "abc". -/
def s0 : SynapsState := initialState "https://verify.synaps.io" "abc" "individual"

/-- The example client after a modal init. -/
def sInit : SynapsState := (init s0 (some modalOpts)).1

/-- The example client after opening the modal session. -/
def sOpen : SynapsState := openSession sInit

/-- The example client after the remote context signalled ready. -/
def sReady : SynapsState := (handleMessage sOpen "ready").1

/-- The example client with a finish callback registered. -/
def sCb : SynapsState := onEvent sReady "finish" 7

/-- The init options of the URL-builder example of the spec: modal,
French, tier 3, primary color set to the hash-prefixed value, secondary
unset. -/
def exampleOpts : InitOptions :=
  { type := some "modal", element_id := none,
    colors := some { primary := some "#fff", secondary := none },
    lang := some "fr", tier := some 3 }

/-- The URL-builder example configuration of the spec after init. -/
def sC4 : SynapsState := (init s0 (some exampleOpts)).1

/-- An embed client whose mount element exists in the host document. -/
def sEmbed0 : SynapsState := { s0 with embedTargetExists := true }

/-- Init options selecting embed mode on the mount element. -/
def embedOpts : InitOptions :=
  { type := some "embed", element_id := some "mount", colors := none,
    lang := none, tier := none }

/-- The embed client after init (which mounts the surface immediately). -/
def sEmbedInit : SynapsState := (init sEmbed0 (some embedOpts)).1

/-- The embed client after the ready signal and a finish registration. -/
def sEmbedCb : SynapsState :=
  onEvent (handleMessage sEmbedInit "ready").1 "finish" 9

/-- Init options whose mode is present but invalid. -/
def wrongOpts : InitOptions :=
  { type := some "wrong", element_id := none, colors := none,
    lang := none, tier := none }

lemma closeFlow_fst_layout (s : SynapsState) :
    (closeFlow s).1.layout = clearedLayout := by
  unfold closeFlow uninstallProxy clearedLayout
  dsimp only
  split
  · split
    · split <;> simp
    · simp
  · split <;> simp

lemma closeFlow_fst_isOpen (s : SynapsState) :
    (closeFlow s).1.isOpen = false := by
  unfold closeFlow uninstallProxy
  dsimp only
  split
  · split
    · split <;> simp
    · simp
  · split <;> simp

/-- C2: on every close path, explicit or the automatic modal close driven
by an inbound finish or close signal, the state after the close has all
html/body overflow and margin overrides removed and isOpen false. -/
theorem closeFlow_restores_layout_all_paths (s : SynapsState) (t : String) :
    ((closeFlow s).1.layout = clearedLayout ∧ (closeFlow s).1.isOpen = false) ∧
    (s.type = "modal" → s.dispatcherRegistered = true →
      (t = "finish" ∨ t = "close") →
      (handleMessage s t).1.layout = clearedLayout ∧
        (handleMessage s t).1.isOpen = false) := by
  refine ⟨⟨closeFlow_fst_layout s, closeFlow_fst_isOpen s⟩, ?_⟩
  intro hm hd ht
  have hnotready : (s.readyListenerRegistered && t == "ready") = false := by
    rcases ht with rfl | rfl <;> simp
  have hcontains : (["finish", "close"].contains t) = true := by
    rcases ht with rfl | rfl <;> simp
  unfold handleMessage handleFinishClose
  rw [hnotready, hd, hcontains, hm]
  simp only [if_true, if_false, Bool.not_true, ite_true, ite_false,
    Bool.false_eq_true, beq_self_eq_true, reduceIte]
  rcases hc : closeFlow s with ⟨s', e⟩
  have hl : s'.layout = clearedLayout := by
    have := closeFlow_fst_layout s; rw [hc] at this; exact this
  have ho : s'.isOpen = false := by
    have := closeFlow_fst_isOpen s; rw [hc] at this; exact this
  cases e <;> dsimp only
  · rcases hlk : s'.callbacks.lookup t with _ | cb <;> simp [hl, ho]
  · exact ⟨hl, ho⟩

/-- Witness for C2 at the opened modal session with a registered finish
callback, closed explicitly and via an inbound finish signal. -/
theorem closeFlow_restores_layout_all_paths_witness :
    ((closeFlow sCb).1.layout = clearedLayout ∧
      (closeFlow sCb).1.isOpen = false) ∧
    ((handleMessage sCb "finish").1.layout = clearedLayout ∧
      (handleMessage sCb "finish").1.isOpen = false) :=
  ⟨(closeFlow_restores_layout_all_paths sCb "finish").1,
   (closeFlow_restores_layout_all_paths sCb "finish").2 rfl rfl (Or.inl rfl)⟩

/-- C3 (code bug): from the opened modal example session the first
closeFlow succeeds, but a redundant second closeFlow throws a DOM
NotFoundError: closeFlow never clears the iframe field after detaching it,
so the second call asks the document body to remove a child it no longer
has. -/
theorem closeFlow_redundant_call_throws :
    (closeFlow sOpen).2 = none ∧
    (closeFlow (closeFlow sOpen).1).2 = some JsError.domNotFound :=
  ⟨rfl, rfl⟩

set_option maxRecDepth 8000 in
/-- C4 counterexample: on the example configuration of the claim the
generated URL does not end with the percent-encoded suffix the claim
states (its character data does not have that suffix), because the source
appends the primary color verbatim without percent-encoding. -/
theorem formatURL_example_not_percent_encoded :
    ("&type=modal&lang=fr&primary_color=%23fff&tier=3".data).isSuffixOf
      (formatURL sC4).data = false := by
  decide

set_option maxRecDepth 8000 in
/-- C4, amended: formatURL deterministically appends the query parameters
to baseURL in the fixed order session_id, service, type, lang (defaulting
to en when falsy), then primary_color only when the primary color is set,
secondary only when the secondary color is set, tier only when truthy; on
the example configuration the result ends with the suffix in which the
primary color appears verbatim as a hash-prefixed value, not
percent-encoded. -/
theorem formatURL_fixed_order :
    (∀ s : SynapsState, formatURL s = specBuildURL s) ∧
    ("&type=modal&lang=fr&primary_color=#fff&tier=3".data).isSuffixOf
      (formatURL sC4).data = true ∧
    formatURL sC4 = "https://verify.synaps.io?session_id=abc&service=individual&type=modal&lang=fr&primary_color=#fff&tier=3" := by
  refine ⟨fun s => ?_, by decide, by rfl⟩
  unfold formatURL specBuildURL
  cases h1 : truthyStr (colorsPrimary s) <;>
    cases h2 : truthyInt (colorsSecondary s) <;>
    cases h3 : truthyInt s.tier <;>
    simp [h1, h2, h3, String.append_assoc, String.append_empty]

/-- C9 counterexample: construction with both arguments present but an
empty session id fails, although the claim allows failure exactly when an
argument is absent. -/
theorem construct_empty_sessionID_fails :
    construct (some "") (some "individual") none =
      Except.error (JsError.configurationError
        "\"sessionID\" and \"service\" are required.") ∧
    some "" ≠ (none : Option String) ∧
    some "individual" ≠ (none : Option String) :=
  ⟨rfl, by decide, by decide⟩

/-- C9, amended: construction fails with a ConfigurationError exactly when
sessionID or serviceType is absent or empty (JS-falsy); when both are
truthy and no url is supplied, the default base URL is selected by the
service, and the corporate and individual default endpoints differ. -/
theorem construct_fails_iff_falsy :
    (∀ sid svc url, (construct sid svc url =
        Except.error (JsError.configurationError
          "\"sessionID\" and \"service\" are required.")) ↔
        (truthyStr sid = false ∨ truthyStr svc = false)) ∧
    (∀ sid svc, truthyStr sid = true → truthyStr svc = true →
      construct sid svc none =
        Except.ok (initialState (defaultBaseURL (svc.getD ""))
          (sid.getD "") (svc.getD ""))) ∧
    defaultBaseURL "corporate" ≠ defaultBaseURL "individual" := by
  refine ⟨fun sid svc url => ?_, fun sid svc h1 h2 => ?_, by decide⟩
  · unfold construct
    cases h1 : truthyStr sid <;> cases h2 : truthyStr svc <;> simp [h1, h2]
  · unfold construct
    rw [h1, h2]
    simp [truthyStr]

/-- Witness for C9 amended: a corporate construction succeeds and selects
the corporate endpoint. -/
theorem construct_fails_iff_falsy_witness :
    construct (some "abc") (some "corporate") none =
      Except.ok (initialState (defaultBaseURL "corporate") "abc" "corporate") :=
  construct_fails_iff_falsy.2.1 (some "abc") (some "corporate") rfl rfl

/-- C6: init is idempotent: after a first successful init from an
uninitialized client, every later init call, with any options, is a no-op
that neither changes the state nor throws, so the configuration of the
first call stays in effect. -/
theorem init_idempotent (s s₁ : SynapsState) (o₁ o₂ : Option InitOptions)
    (h : s.alreadyInit = false) (h1 : init s o₁ = (s₁, none)) :
    init s₁ o₂ = (s₁, none) := by
  have h2 : s₁.alreadyInit = true := by
    unfold init at h1
    rw [h] at h1
    simp only [Bool.false_eq_true, if_false] at h1
    split at h1
    · simp at h1
    · have hfst := congrArg Prod.fst h1
      dsimp at hfst
      rw [← hfst]
  unfold init
  rw [h2]
  simp

/-- Witness for C6: a second init with embed options after a first modal
init leaves the modal configuration untouched. -/
theorem init_idempotent_witness :
    init sInit (some embedOpts) = (sInit, none) :=
  init_idempotent s0 sInit (some modalOpts) (some embedOpts) rfl rfl

/-- C7: an init call with an invalid present mode on an uninitialized
client throws a ConfigurationError and leaves the state completely
unchanged (so no field is modified and the initialized flag stays unset),
and any later init whose mode is falsy or one of the two allowed values
succeeds and initializes the client. -/
theorem init_invalid_type_aborts (s : SynapsState) (o : InitOptions)
    (t : String) (h : s.alreadyInit = false) (ht : o.type = some t)
    (h1 : t ≠ "") (h2 : t ≠ "modal") (h3 : t ≠ "embed") :
    init s (some o) = (s, some (JsError.configurationError
      "The type must be either \"modal\" or \"embed\".")) ∧
    ∀ o₂ : Option InitOptions,
      truthyStr (o₂.bind InitOptions.type) = false ∨
        o₂.bind InitOptions.type = some "modal" ∨
        o₂.bind InitOptions.type = some "embed" →
      (init s o₂).2 = none ∧ (init s o₂).1.alreadyInit = true := by
  constructor
  · unfold init
    rw [h]
    rw [if_neg (by simp)]
    have hty : truthyStr ((some o).bind InitOptions.type) = true := by
      simp [ht, truthyStr, h1]
    have hcon : (["modal", "embed"].contains
        (((some o).bind InitOptions.type).getD "")) = false := by
      simp [ht, h2, h3]
    have hcond : (truthyStr ((some o).bind InitOptions.type) &&
        !(["modal", "embed"].contains
          (((some o).bind InitOptions.type).getD ""))) = true := by
      rw [hty, hcon]
      rfl
    rw [if_pos hcond]
  · intro o₂ ho
    unfold init
    rw [h]
    rw [if_neg (by simp)]
    have hval : (truthyStr (o₂.bind InitOptions.type) &&
        !(["modal", "embed"].contains ((o₂.bind InitOptions.type).getD "")))
          = false := by
      rcases ho with ho | ho | ho
      · simp [ho]
      · simp [ho, truthyStr]
      · simp [ho, truthyStr]
    have hnot : ¬((truthyStr (o₂.bind InitOptions.type) &&
        !(["modal", "embed"].contains ((o₂.bind InitOptions.type).getD "")))
          = true) := by
      rw [hval]
      simp
    rw [if_neg hnot]
    exact ⟨rfl, rfl⟩

/-- Witness for C7: an init with mode "wrong" fails without touching the
fresh client, and a corrected modal init then succeeds. -/
theorem init_invalid_type_aborts_witness :
    (init s0 (some wrongOpts) =
      (s0, some (JsError.configurationError
        "The type must be either \"modal\" or \"embed\".")) ∧
    (init s0 (some modalOpts)).2 = none ∧
    (init s0 (some modalOpts)).1.alreadyInit = true) := by
  have h := init_invalid_type_aborts s0 wrongOpts "wrong" rfl rfl
    (by decide) (by decide) (by decide)
  exact ⟨h.1, h.2 (some modalOpts) (Or.inr (Or.inl rfl))⟩

/-- C8: openSession is idempotent: when the session is already open it is
a no-op, and from a closed initialized session two consecutive calls
perform exactly one loader insertion, one iframe append and one layout
mutation. -/
theorem openSession_idempotent (s : SynapsState) :
    (s.isOpen = true → openSession s = s) ∧
    (s.isOpen = false → s.iframeCreated = true →
      openSession (openSession s) = openSession s ∧
      (openSession s).loaderInsertions = s.loaderInsertions + 1 ∧
      (openSession s).iframeAppends = s.iframeAppends + 1 ∧
      (openSession s).layoutMutations = s.layoutMutations + 1) := by
  constructor
  · intro h
    unfold openSession
    rw [h]
    simp
  · intro h hif
    have hopen : (openSession s).isOpen = true := by
      unfold openSession
      rw [h]
      simp [hif]
    refine ⟨?_, ?_, ?_, ?_⟩
    · conv_lhs => rw [openSession]
      rw [hopen]
      simp
    all_goals
      unfold openSession
      rw [h]
      simp [hif]

/-- Witness for C8: opening the initialized example session twice equals
opening it once and bumps each effect counter exactly once. -/
theorem openSession_idempotent_witness :
    (openSession (openSession sInit) = openSession sInit ∧
      (openSession sInit).loaderInsertions = sInit.loaderInsertions + 1 ∧
      (openSession sInit).iframeAppends = sInit.iframeAppends + 1 ∧
      (openSession sInit).layoutMutations = sInit.layoutMutations + 1) :=
  (openSession_idempotent sInit).2 rfl rfl

lemma closeFlow_frame (s : SynapsState) :
    (closeFlow s).1.callbacks = s.callbacks ∧
    (closeFlow s).1.callbackLog = s.callbackLog ∧
    (closeFlow s).1.type = s.type := by
  unfold closeFlow uninstallProxy
  dsimp only
  split
  · split
    · split <;> simp
    · simp
  · split <;> simp

lemma closeFlow_snd_none (s : SynapsState)
    (h : s.iframeCreated = false ∨ s.iframeLoc = IframeLoc.inBody) :
    (closeFlow s).2 = none := by
  unfold closeFlow uninstallProxy
  dsimp only
  rcases h with h | h
  · rw [h]
    simp
  · cases hc : s.iframeCreated
    · simp
    · simp [h]

lemma handleReadyRest_frame (s : SynapsState) :
    (handleReadyRest s).1.isOpen = s.isOpen ∧
    (handleReadyRest s).1.layout = s.layout ∧
    (handleReadyRest s).1.callbackLog = s.callbackLog ∧
    (handleReadyRest s).1.callbacks = s.callbacks ∧
    (handleReadyRest s).1.readyListenerRegistered =
      s.readyListenerRegistered ∧
    (handleReadyRest s).1.iframeCreated = s.iframeCreated ∧
    (handleReadyRest s).1.iframeLoc = s.iframeLoc ∧
    (handleReadyRest s).1.loaderElement = s.loaderElement ∧
    (handleReadyRest s).1.loaderSet = s.loaderSet ∧
    (handleReadyRest s).1.loaderAttached = s.loaderAttached ∧
    (handleReadyRest s).2 = none := by
  unfold handleReadyRest
  dsimp only
  (repeat' split) <;> simp_all

lemma handleReadyRest_run (s : SynapsState) :
    (handleReadyRest s).1.eventInited = true ∧
    (handleReadyRest s).1.dispatcherRegs =
      (if s.eventInited then s.dispatcherRegs else s.dispatcherRegs + 1) ∧
    (handleReadyRest s).1.installCount =
      (if contentWindowReachable s then s.installCount + 1
       else s.installCount) := by
  unfold handleReadyRest
  dsimp only
  (repeat' split) <;> simp_all

lemma handleReady_frame (s : SynapsState) :
    (handleReady s).1.isOpen = s.isOpen ∧
    (handleReady s).1.layout = s.layout ∧
    (handleReady s).1.callbackLog = s.callbackLog ∧
    (handleReady s).1.callbacks = s.callbacks ∧
    (handleReady s).1.readyListenerRegistered = s.readyListenerRegistered ∧
    (handleReady s).1.iframeCreated = s.iframeCreated ∧
    (handleReady s).1.iframeLoc = s.iframeLoc ∧
    (handleReady s).1.loaderElement = s.loaderElement ∧
    (handleReady s).1.loaderSet = s.loaderSet := by
  unfold handleReady
  rcases hle : s.loaderElement with _ | p <;> dsimp only
  · simp [handleReadyRest_frame s, hle]
  · split
    · simp [hle]
    · split
      · simp [handleReadyRest_frame
          { s with loaderElement := some p, loaderAttached := false }, hle]
      · simp [hle]

lemma handleReady_fail (s : SynapsState) (h : readyPass s = false) :
    handleReady s = (s, some (if s.loaderSet then JsError.domNotFound
      else JsError.typeError)) := by
  unfold handleReady
  unfold readyPass at h
  cases hle : s.loaderElement <;> rw [hle] at h
  · simp at h
  · dsimp only
    cases hset : s.loaderSet
    · simp [hset]
    · rw [hset] at h
      simp at h
      simp [hset, h]

lemma handleReady_run (s : SynapsState) (h : readyPass s = true) :
    (handleReady s).1.eventInited = true ∧
    (handleReady s).1.dispatcherRegs =
      (if s.eventInited then s.dispatcherRegs else s.dispatcherRegs + 1) ∧
    (handleReady s).1.installCount =
      (if contentWindowReachable s then s.installCount + 1
       else s.installCount) ∧
    (handleReady s).1.loaderAttached =
      (if s.loaderElement.isSome then false else s.loaderAttached) ∧
    (handleReady s).2 = none := by
  unfold handleReady
  unfold readyPass at h
  rcases hle : s.loaderElement with _ | p <;> rw [hle] at h <;> dsimp only
  · simp [handleReadyRest_run s, handleReadyRest_frame s]
  · simp only [Bool.and_eq_true] at h
    obtain ⟨hset, hatt⟩ := h
    rw [if_neg (by simp [hset])]
    rw [if_pos hatt]
    obtain ⟨f1, f2, f3, f4, f5, f6, f7, f8, f9, f10, f11⟩ :=
      handleReadyRest_frame
        { s with loaderElement := some p, loaderAttached := false }
    obtain ⟨r1, r2, r3⟩ :=
      handleReadyRest_run
        { s with loaderElement := some p, loaderAttached := false }
    refine ⟨r1, ?_, ?_, ?_, f11⟩
    · simpa using r2
    · simpa [contentWindowReachable] using r3
    · rw [f10]
      simp

/-- C5: with the dispatcher installed and a finish callback registered, an
inbound finish message in modal mode (the iframe attached to the body, or
absent) invokes the callback and performs the automatic close; in embed
mode it invokes only the callback and performs no close; and a message
whose type is neither finish nor close triggers neither a callback nor a
close. -/
theorem finish_dispatch_modal_vs_embed (s : SynapsState) (cb : Nat)
    (t : String) (hd : s.dispatcherRegistered = true)
    (hcb : s.callbacks.lookup "finish" = some cb) :
    (s.type = "modal" →
      (s.iframeCreated = false ∨ s.iframeLoc = IframeLoc.inBody) →
      (handleMessage s "finish").1.callbackLog = s.callbackLog ++
        [{ event := "finish", isOpenSeen := false,
           htmlOverflowSeen := none }] ∧
      (handleMessage s "finish").1.isOpen = false ∧
      (handleMessage s "finish").2 = none) ∧
    (s.type = "embed" →
      handleMessage s "finish" =
        ({ s with callbackLog := s.callbackLog ++
            [{ event := "finish", isOpenSeen := s.isOpen,
               htmlOverflowSeen := s.layout.htmlOverflow }] }, none)) ∧
    (t ≠ "finish" → t ≠ "close" →
      (handleMessage s t).1.callbackLog = s.callbackLog ∧
      (handleMessage s t).1.isOpen = s.isOpen ∧
      (handleMessage s t).1.layout = s.layout) := by
  refine ⟨?_, ?_, ?_⟩
  · intro hm hif
    unfold handleMessage
    rw [if_neg (by simp)]
    rw [if_pos hd]
    unfold handleFinishClose
    rw [if_neg (by decide)]
    rw [if_pos (by simp [hm])]
    rcases hc : closeFlow s with ⟨s', e⟩
    have he : e = none := by
      have := closeFlow_snd_none s hif
      rw [hc] at this
      exact this
    subst he
    dsimp only
    have h1 : s'.callbacks = s.callbacks := by
      have := (closeFlow_frame s).1
      rw [hc] at this
      exact this
    have h2 : s'.callbackLog = s.callbackLog := by
      have := (closeFlow_frame s).2.1
      rw [hc] at this
      exact this
    have h3 : s'.isOpen = false := by
      have := closeFlow_fst_isOpen s
      rw [hc] at this
      exact this
    have h4 : s'.layout = clearedLayout := by
      have := closeFlow_fst_layout s
      rw [hc] at this
      exact this
    simp [h1, h2, h3, h4, hcb, clearedLayout]
  · intro hm
    unfold handleMessage
    rw [if_neg (by simp)]
    rw [if_pos hd]
    unfold handleFinishClose
    rw [if_neg (by decide)]
    rw [if_neg (by simp [hm])]
    dsimp only
    simp [hcb]
  · intro h1 h2
    unfold handleMessage
    by_cases hr : (s.readyListenerRegistered && (t == "ready")) = true
    · rw [if_pos hr]
      obtain ⟨g1, g2, g3, -, -, -, -, -, -⟩ := handleReady_frame s
      exact ⟨g3, g1, g2⟩
    · rw [if_neg hr]
      by_cases hd2 : s.dispatcherRegistered = true
      · rw [if_pos hd2]
        unfold handleFinishClose
        rw [if_pos (by simp [h1, h2])]
        exact ⟨rfl, rfl, rfl⟩
      · rw [if_neg hd2]
        exact ⟨rfl, rfl, rfl⟩

/-- Witness for C5 at the opened modal session (with the ready handled and
a finish callback registered), at the mounted embed session, and at an
unrelated message type. -/
theorem finish_dispatch_modal_vs_embed_witness :
    ((handleMessage sCb "finish").1.callbackLog = sCb.callbackLog ++
        [{ event := "finish", isOpenSeen := false,
           htmlOverflowSeen := none }] ∧
      (handleMessage sCb "finish").1.isOpen = false ∧
      (handleMessage sCb "finish").2 = none) ∧
    (handleMessage sEmbedCb "finish" =
      ({ sEmbedCb with callbackLog := sEmbedCb.callbackLog ++
          [{ event := "finish", isOpenSeen := sEmbedCb.isOpen,
             htmlOverflowSeen := sEmbedCb.layout.htmlOverflow }] }, none)) ∧
    ((handleMessage sCb "other").1.callbackLog = sCb.callbackLog ∧
      (handleMessage sCb "other").1.isOpen = sCb.isOpen ∧
      (handleMessage sCb "other").1.layout = sCb.layout) :=
  ⟨(finish_dispatch_modal_vs_embed sCb 7 "other" rfl rfl).1 rfl
      (Or.inr rfl),
   (finish_dispatch_modal_vs_embed sEmbedCb 9 "other" rfl rfl).2.1 rfl,
   (finish_dispatch_modal_vs_embed sCb 7 "other" rfl rfl).2.2
      (by decide) (by decide)⟩

/-- C10: when the dispatcher handles an inbound finish or close message in
modal mode, the close completes before the user callback runs: every
callback invocation recorded during the dispatch observes isOpen false and
a cleared html overflow override. -/
theorem callback_observes_closed_state (s : SynapsState) (t : String)
    (obs : CallbackObs) (hm : s.type = "modal")
    (ht : t = "finish" ∨ t = "close")
    (hobs : obs ∈ (handleMessage s t).1.callbackLog) :
    obs ∈ s.callbackLog ∨
      (obs.isOpenSeen = false ∧ obs.htmlOverflowSeen = none) := by
  unfold handleMessage at hobs
  rw [if_neg (by rcases ht with rfl | rfl <;> simp)] at hobs
  by_cases hd : s.dispatcherRegistered = true
  · rw [if_pos hd] at hobs
    unfold handleFinishClose at hobs
    rw [if_neg (by rcases ht with rfl | rfl <;> decide)] at hobs
    rw [if_pos (by simp [hm])] at hobs
    rcases hc : closeFlow s with ⟨s', e⟩
    rw [hc] at hobs
    have h2 : s'.callbackLog = s.callbackLog := by
      have := (closeFlow_frame s).2.1
      rw [hc] at this
      exact this
    have h3 : s'.isOpen = false := by
      have := closeFlow_fst_isOpen s
      rw [hc] at this
      exact this
    have h4 : s'.layout = clearedLayout := by
      have := closeFlow_fst_layout s
      rw [hc] at this
      exact this
    cases e
    · rcases hl : s'.callbacks.lookup t with _ | c
      · simp only [hl] at hobs
        have hobs' : obs ∈ s'.callbackLog := hobs
        rw [h2] at hobs'
        exact Or.inl hobs'
      · simp only [hl] at hobs
        have hobs' : obs ∈ s'.callbackLog ++
            [(⟨t, s'.isOpen, s'.layout.htmlOverflow⟩ : CallbackObs)] := hobs
        rw [h2] at hobs'
        rcases List.mem_append.mp hobs' with h | h
        · exact Or.inl h
        · right
          have hx : obs =
              (⟨t, s'.isOpen, s'.layout.htmlOverflow⟩ : CallbackObs) := by
            simpa using h
          rw [hx]
          refine ⟨h3, ?_⟩
          show s'.layout.htmlOverflow = none
          rw [h4]
          rfl
    · have hobs' : obs ∈ s'.callbackLog := hobs
      rw [h2] at hobs'
      exact Or.inl hobs'
  · rw [if_neg hd] at hobs
    exact Or.inl hobs

/-- Witness for C10: the single observation logged when the opened modal
session dispatches a finish message records the closed state. -/
theorem callback_observes_closed_state_witness :
    ({ event := "finish", isOpenSeen := false, htmlOverflowSeen := none } :
        CallbackObs) ∈ sCb.callbackLog ∨
      (({ event := "finish", isOpenSeen := false,
          htmlOverflowSeen := none } : CallbackObs).isOpenSeen = false ∧
        ({ event := "finish", isOpenSeen := false,
           htmlOverflowSeen := none } : CallbackObs).htmlOverflowSeen
          = none) :=
  callback_observes_closed_state sCb "finish"
    { event := "finish", isOpenSeen := false, htmlOverflowSeen := none }
    rfl (Or.inl rfl) (by decide)

/-- C1: from any freshly initialized session state (dispatcher not yet
registered, nothing installed yet, loader bookkeeping consistent and a
reachable content window only behind a set loaderElement, as every
initialized session satisfies), two immediately consecutive ready messages
register the finish/close dispatcher exactly once, and install at most one
proxy in total, so at most one proxy handle is ever active. -/
theorem double_ready_single_dispatcher_and_proxy (s : SynapsState)
    (hrl : s.readyListenerRegistered = true)
    (hev : s.eventInited = false)
    (hregs : s.dispatcherRegs = 0)
    (hinst : s.installCount = 0)
    (hload : s.loaderElement.isSome = true →
      s.loaderSet = true ∧ s.loaderAttached = true)
    (hcw : contentWindowReachable s = true →
      s.loaderElement.isSome = true) :
    (handleMessage s "ready").1.dispatcherRegs = 1 ∧
    (handleMessage (handleMessage s "ready").1 "ready").1.dispatcherRegs
      = 1 ∧
    (handleMessage s "ready").1.installCount ≤ 1 ∧
    (handleMessage (handleMessage s "ready").1 "ready").1.installCount
      ≤ 1 := by
  have hmsg : ∀ u : SynapsState, u.readyListenerRegistered = true →
      handleMessage u "ready" = handleReady u := by
    intro u hu
    unfold handleMessage
    rw [if_pos (by simp [hu])]
  have hpass : readyPass s = true := by
    unfold readyPass
    rcases hle : s.loaderElement with _ | p
    · rfl
    · obtain ⟨a, b⟩ := hload (by rw [hle]; rfl)
      rw [a, b]
      rfl
  rw [hmsg s hrl]
  obtain ⟨e1, e2, e3, e4, e5⟩ := handleReady_run s hpass
  have hregs1 : (handleReady s).1.dispatcherRegs = 1 := by
    rw [e2, hev]
    simp [hregs]
  have hinst1 : (handleReady s).1.installCount ≤ 1 := by
    rw [e3]
    split <;> simp [hinst]
  obtain ⟨g1, g2, g3, g4, g5, g6, g7, g8, g9⟩ := handleReady_frame s
  rw [hmsg (handleReady s).1 (by rw [g5]; exact hrl)]
  rcases hle : s.loaderElement with _ | p
  · have hcwf : contentWindowReachable s = false := by
      cases hc : contentWindowReachable s
      · rfl
      · have := hcw hc
        rw [hle] at this
        simp at this
    have hp1 : readyPass (handleReady s).1 = true := by
      unfold readyPass
      rw [g8, hle]
    obtain ⟨k1, k2, k3, k4, k5⟩ := handleReady_run (handleReady s).1 hp1
    have hcw1 : contentWindowReachable (handleReady s).1 = false := by
      unfold contentWindowReachable
      unfold contentWindowReachable at hcwf
      rw [g6, g7]
      exact hcwf
    have hinstz : (handleReady s).1.installCount = 0 := by
      rw [e3, hcwf]
      simp [hinst]
    refine ⟨hregs1, ?_, hinst1, ?_⟩
    · rw [k2, e1]
      simp [hregs1]
    · rw [k3, hcw1]
      simp [hinstz]
  · have ha : (handleReady s).1.loaderAttached = false := by
      rw [e4, hle]
      simp
    have hp1 : readyPass (handleReady s).1 = false := by
      unfold readyPass
      rw [g8, hle]
      dsimp only
      rw [ha]
      simp
    have hfail := handleReady_fail (handleReady s).1 hp1
    rw [hfail]
    exact ⟨hregs1, hregs1, hinst1, hinst1⟩

/-- Witness for C1 at the freshly opened modal session. -/
theorem double_ready_single_dispatcher_and_proxy_witness :
    (handleMessage sOpen "ready").1.dispatcherRegs = 1 ∧
    (handleMessage (handleMessage sOpen "ready").1
      "ready").1.dispatcherRegs = 1 ∧
    (handleMessage sOpen "ready").1.installCount ≤ 1 ∧
    (handleMessage (handleMessage sOpen "ready").1
      "ready").1.installCount ≤ 1 :=
  double_ready_single_dispatcher_and_proxy sOpen rfl rfl rfl rfl
    (by decide) (by decide)

end Synaps
